import Mathlib

/-!
# Verification of the CHIPS acquisition-and-calibration core (`chips/fetch.py`)

This file gives a shallow embedding, in Lean 4, of the data model and the
operations of `src/chips/fetch.py`:

* `SolarDisk` — cache-first acquisition (`search_local`, `fetch`), optional
  point-spread-function deconvolution, the four-stage calibration pipeline
  (`normalization`) and geometry extraction (`fetch_solar_parameters`);
* `RegisterAIA` — the wavelength x resolution dataset registry;
* `SynopticMap` — Carrington-rotation resolution, download-if-absent caching
  and the coordinate-unit header repair.

Modelling conventions:

* FITS header values and pixel data are idealized over `ℚ` (the Python code
  uses IEEE doubles; every claim checked here is about exact arithmetic
  structure, e.g. truncation versus rounding, that is float-independent).
* Python `datetime` instants are embedded as a calendar record
  (`PyDateTime`); `timedelta` arithmetic happens on the absolute-seconds
  image `PyDateTime.toSec`.
* External collaborators (the `aiapy` calibration stage bodies, `sunpy`
  Carrington-rotation conversions, the Fido catalog, HTTP transport, the
  local directory listing) are not part of this repository; they enter as
  explicit environment parameters or as definitions marked
  `Modelled from the spec:`.  Everything else is translated directly from
  the Python source.
* Fallible Python code (KeyError on a missing header field, IndexError on an
  empty catalog result, opening an absent file) is embedded with `Except`
  over the spec's error taxonomy (`CalibrationError` carrying the stage
  name, `MissingGeometryFieldsError`, `NotFoundError`, `RemoteFetchError`).
-/

set_option maxRecDepth 40000

namespace Chips

/-- A FITS header value: numeric or textual.  Header values the code consumes
(`cdelt2`, `r_sun`, `rsun_obs`, `cunit1`, `cunit2`) are one of these two. -/
inductive HVal where
  | num (q : ℚ)
  | str (s : String)
deriving DecidableEq

/-- A FITS header: an association list of key/value pairs (Python exposes it
as a mapping with unique keys; lookup takes the first binding). -/
def Header := List (String × HVal)

instance : DecidableEq Header := by
  unfold Header
  infer_instance

/-- Header lookup: `h[k]` as an `Option` (Python raises `KeyError` on a
missing key; the absent case is the `none` branch). -/
def Header.find (h : Header) (k : String) : Option HVal :=
  match h with
  | [] => none
  | (k₁, v) :: rest => if k₁ = k then some v else Header.find rest k

/-- Header assignment `h[k] = v`: replaces the first binding of `k` in place,
or appends a fresh binding when `k` is absent. -/
def Header.set (h : Header) (k : String) (v : HVal) : Header :=
  match h with
  | [] => [(k, v)]
  | (k₁, v₁) :: rest =>
    if k₁ = k then (k, v) :: rest else (k₁, v₁) :: Header.set rest k v

/-- Pixel data of a map: a 2-D numeric array, idealized over `ℚ`. -/
def Pixels := List (List ℚ)

instance : DecidableEq Pixels := by
  unfold Pixels
  infer_instance

/-- A FITS file / `sunpy.map.Map`: pixel data plus the metadata header
(`Map._meta`). -/
structure FitsFile where
  data : Pixels
  header : Header
deriving DecidableEq

/-- The spec's acquisition error taxonomy.  `calibrationError` carries the
name of the offending pipeline stage. -/
inductive AcqError where
  | notFoundError
  | calibrationError (stage : String)
  | missingGeometryFieldsError
deriving DecidableEq

/-- Python `int(x)` on a real number: truncation toward zero. -/
def pyInt (q : ℚ) : ℤ :=
  if 0 ≤ q then ⌊q⌋ else ⌈q⌉

/-- The disk geometry derived by `SolarDisk.fetch_solar_parameters`:
`rscale` (arcsec/pixel), `r_sun`, `rsun_obs` (arcsec) and the pixel radius. -/
structure DiskGeometry where
  rscale : ℚ
  r_sun : HVal
  rsun_obs : ℚ
  pixel_radius : ℤ
deriving DecidableEq

/-- `SolarDisk.fetch_solar_parameters` (fetch.py lines 175-190): reads
`cdelt2`, `r_sun` and `rsun_obs` from the normalized map's `_meta` and sets
`pixel_radius = int(rsun_obs / rscale)`.  A missing key raises (KeyError in
Python; the spec names this `MissingGeometryFieldsError`). -/
def fetch_solar_parameters (h : Header) : Except AcqError DiskGeometry :=
  match h.find "cdelt2", h.find "r_sun", h.find "rsun_obs" with
  | some (HVal.num rscale), some r_sun, some (HVal.num rsun_obs) =>
    Except.ok ⟨rscale, r_sun, rsun_obs, pyInt (rsun_obs / rscale)⟩
  | _, _, _ => Except.error AcqError.missingGeometryFieldsError

/-- The spec's reading of the geometry formula: `pixel_radius` is the
NEAREST-integer rounding of `angular_radius / angular_scale` (Mathlib
`round`, i.e. `⌊q + 1/2⌋`).  Declared only to compare against the code's
`fetch_solar_parameters`. -/
def specPixelRadius (rsun_obs rscale : ℚ) : ℤ :=
  round (rsun_obs / rscale)

/-- The spec's `CalibratedImage.stage` enum. -/
inductive CalStage where
  | NONE
  | DECONVOLVED
  | POINTED
  | REGISTERED
  | DEGRADATION_CORRECTED
  | NORMALIZED
deriving DecidableEq

/-- A calibrated image: the file (pixels + header), the spec's stage tag,
and the trace of calibration-stage names applied so far (instrumentation
used to state order-of-application properties). -/
structure CalImage where
  file : FitsFile
  stage : CalStage
  trace : List String
deriving DecidableEq

/-- Modelled from the spec: the body of one `aiapy.calibrate` stage (the
stage implementations live outside this repository).  Per spec section 4.4 a
stage demands a set of required header fields, transforms the pixel data,
and may rewrite header values but must retain every header key (so that the
angular-scale and angular-radius fields survive to geometry extraction). -/
structure StageModel where
  required : List String
  dupd : Pixels → Pixels
  hupd : String → HVal → HVal

/-- Rewrite every header value in place, keeping every key. -/
def Header.mapVals (f : String → HVal → HVal) (h : Header) : Header :=
  h.map (fun kv => (kv.1, f kv.1 kv.2))

/-- Run one calibration stage: check the stage's required header fields,
failing with a `CalibrationError` that carries the stage `name` when one is
absent; otherwise transform pixels and header values, advance the stage tag
to `target`, and append `name` to the trace. -/
def runStage (name : String) (target : CalStage) (s : StageModel)
    (img : CalImage) : Except AcqError CalImage :=
  if s.required.all (fun k => (img.file.header.find k).isSome) then
    Except.ok
      { file :=
          { data := s.dupd img.file.data
            header := Header.mapVals s.hupd img.file.header }
        stage := target
        trace := img.trace ++ [name] }
  else Except.error (AcqError.calibrationError name)

/-- Modelled from the spec: the external collaborators consumed by
`SolarDisk` — the four `aiapy.calibrate` stage bodies and
`aiapy.psf.deconvolve` (pixel-only transform of the raw image). -/
structure CalEnv where
  pointing : StageModel
  registration : StageModel
  degradation : StageModel
  exposure : StageModel

/-- `aiapy.calibrate.update_pointing` as called at fetch.py line 168. -/
def update_pointing (env : CalEnv) : CalImage → Except AcqError CalImage :=
  runStage "update_pointing" CalStage.POINTED env.pointing

/-- `aiapy.calibrate.register` as called at fetch.py line 169. -/
def register (env : CalEnv) : CalImage → Except AcqError CalImage :=
  runStage "register" CalStage.REGISTERED env.registration

/-- `aiapy.calibrate.correct_degradation` as called at fetch.py line 170. -/
def correct_degradation (env : CalEnv) : CalImage → Except AcqError CalImage :=
  runStage "correct_degradation" CalStage.DEGRADATION_CORRECTED env.degradation

/-- `aiapy.calibrate.normalize_exposure` as called at fetch.py line 171. -/
def normalize_exposure (env : CalEnv) : CalImage → Except AcqError CalImage :=
  runStage "normalize_exposure" CalStage.NORMALIZED env.exposure

/-- `SolarDisk.normalization` (fetch.py lines 156-173): choose the stage-0
input once (`key = "psf" if self.apply_psf else "raw"`), run the four
calibration stages in their written order, then extract the disk geometry
from the normalized map.  `psfD` is the deconvolved variant `self.psf`
(set by `fetch` whenever `apply_psf` is true). -/
def SolarDisk.normalization (env : CalEnv) (apply_psf : Bool)
    (raw psfD : FitsFile) : Except AcqError (CalImage × DiskGeometry) := do
  let stage0 : CalImage :=
    if apply_psf then ⟨psfD, CalStage.DECONVOLVED, []⟩
    else ⟨raw, CalStage.NONE, []⟩
  let updated_point ← update_pointing env stage0
  let registred ← register env updated_point
  let registred₂ ← correct_degradation env registred
  let normalized ← normalize_exposure env registred₂
  let geom ← fetch_solar_parameters normalized.file.header
  return (normalized, geom)

/-- A Python `datetime.datetime` instant: proleptic-Gregorian calendar date
plus the second of the day. -/
structure PyDateTime where
  year : ℤ
  month : ℕ
  day : ℕ
  secOfDay : ℕ
deriving DecidableEq

/-- Day count since 1970-01-01 of a calendar date (standard civil-from-date
conversion for the proleptic Gregorian calendar). -/
def daysFromCivil (d : PyDateTime) : ℤ :=
  let y : ℤ := if d.month ≤ 2 then d.year - 1 else d.year
  let era : ℤ := Int.fdiv y 400
  let yoe : ℤ := y - era * 400
  let mp : ℤ := ((d.month : ℤ) + 9) % 12
  let doy : ℤ := Int.fdiv (153 * mp + 2) 5 + (d.day : ℤ) - 1
  let doe : ℤ := yoe * 365 + Int.fdiv yoe 4 - Int.fdiv yoe 100 + doy
  era * 146097 + doe - 719468

/-- Absolute seconds since the 1970 epoch; `datetime + timedelta(seconds=s)`
is `toSec + s` in this image. -/
def PyDateTime.toSec (d : PyDateTime) : ℤ :=
  daysFromCivil d * 86400 + (d.secOfDay : ℤ)

/-- Zero-pad to two digits (strftime `%m`, `%d`). -/
def pad2 (n : ℕ) : String :=
  if n < 10 then "0" ++ toString n else toString n

/-- Zero-pad to four digits (strftime `%Y`). -/
def pad4 (n : ℕ) : String :=
  if n < 10 then "000" ++ toString n
  else if n < 100 then "00" ++ toString n
  else if n < 1000 then "0" ++ toString n
  else toString n

/-- `date.strftime("%Y_%m_%d")` (fetch.py line 110). -/
def strfYmd (d : PyDateTime) : String :=
  pad4 d.year.toNat ++ "_" ++ pad2 d.month ++ "_" ++ pad2 d.day

/-- The fixed part of the local-cache glob pattern
`aia_lev1_{wavelength}a_{date_str}*.fits` (fetch.py lines 111-115): the
pattern is keyed by wavelength and date only — resolution never appears. -/
def SolarDisk.globHead (wavelength : ℕ) (d : PyDateTime) : String :=
  "aia_lev1_" ++ toString wavelength ++ "a_" ++ strfYmd d

/-- Whether filename `f` matches the glob `head*.fits`: the character
sequence of `f` starts with that of `head`, ends with `.fits`, and is long
enough that the two parts do not overlap (`*` may match the empty string,
and matches any characters of a file name). -/
def globMatch (head f : String) : Bool :=
  head.data.isPrefixOf f.data && List.isSuffixOf (String.data ".fits") f.data &&
    decide (head.length + 5 ≤ f.length)

/-- `SolarDisk.search_local` (fetch.py lines 101-117): glob the storage root
(`listing` is its directory listing) against the date+wavelength pattern and
return the first match, or `none` — not an error — when nothing matches. -/
def SolarDisk.search_local (listing : List String) (wavelength : ℕ)
    (d : PyDateTime) : Option String :=
  let local_files := listing.filter (globMatch (SolarDisk.globHead wavelength d))
  local_files.head?

/-- Modelled from the spec: the external data-sourcing collaborators of
`SolarDisk.fetch` — loading a cached FITS file by name, the Fido catalog
query `search start end wavelength` returning response groups of records,
and `aiapy.psf.deconvolve raw use_gpu` (GPU and CPU paths are numerically
equivalent per spec section 4.3, so one function models both). -/
structure FetchEnv where
  loadLocal : String → FitsFile
  fidoSearch : ℤ → ℤ → ℕ → List (List FitsFile)
  deconvolve : FitsFile → Bool → FitsFile

/-- Outcome of `SolarDisk.fetch`: the raw map, the optional deconvolved
map, and — provenance instrumentation — the `(start, end, wavelength)`
catalog query that was issued, or `none` when the cache was hit. -/
structure FetchOut where
  raw : FitsFile
  psf : Option FitsFile
  remoteQuery : Option (ℤ × ℤ × ℕ)
deriving DecidableEq

/-- `SolarDisk.fetch` (fetch.py lines 119-154): try the local cache first;
on a hit load that file and issue no catalog query; on a miss query Fido
over `[date, date + 60 s)` at the given wavelength and take the first record
of the first response group (`q[0, 0]`; an empty result raises, which the
spec's taxonomy names `NotFoundError`).  The `resolution != 4096` branch of
the source is `pass`, embedded as the identity.  Finally, when `apply_psf`
is set, the deconvolved variant is produced from the raw map. -/
def SolarDisk.fetch (env : FetchEnv) (listing : List String) (date : PyDateTime)
    (wavelength resolution : ℕ) (apply_psf use_gpu : Bool) :
    Except AcqError FetchOut := do
  let (raw₀, remoteQuery) ←
    match SolarDisk.search_local listing wavelength date with
    | some local_file =>
      Except.ok (env.loadLocal local_file, (none : Option (ℤ × ℤ × ℕ)))
    | none =>
      let t₀ := date.toSec
      let q := env.fidoSearch t₀ (t₀ + 60) wavelength
      match q.head? with
      | none => Except.error AcqError.notFoundError
      | some grp =>
        match grp.head? with
        | none => Except.error AcqError.notFoundError
        | some rec => Except.ok (rec, some (t₀, t₀ + 60, wavelength))
  let raw := if resolution ≠ 4096 then raw₀ else raw₀
  let psf := if apply_psf then some (env.deconvolve raw use_gpu) else none
  return ⟨raw, psf, remoteQuery⟩

/-- The state of a constructed `chips.fetch.SolarDisk` object: the stored
constructor arguments and the maps and geometry set by `fetch` /
`normalization`.  Attributes the happy path never sets (`psf` without
`apply_psf`, `normalized` and the geometry without `norm`) are `Option`s. -/
structure SolarDisk where
  date : PyDateTime
  wavelength : ℕ
  resolution : ℕ
  apply_psf : Bool
  norm : Bool
  use_gpu : Bool
  raw : FitsFile
  psf : Option FitsFile
  normalized : Option CalImage
  geometry : Option DiskGeometry
  remoteQuery : Option (ℤ × ℤ × ℕ)
deriving DecidableEq

/-- `SolarDisk.__init__` (fetch.py lines 55-75): store the parameters
(`resolution if resolution else 4096`), run `fetch`, and run
`normalization` only when `norm` is set. -/
def SolarDisk.init (fenv : FetchEnv) (cenv : CalEnv) (listing : List String)
    (date : PyDateTime) (wavelength resolution : ℕ)
    (apply_psf norm use_gpu : Bool) : Except AcqError SolarDisk := do
  let resolution₁ := if resolution ≠ 0 then resolution else 4096
  let fo ← SolarDisk.fetch fenv listing date wavelength resolution₁
    apply_psf use_gpu
  if norm then do
    let ng ← SolarDisk.normalization cenv apply_psf fo.raw (fo.psf.getD fo.raw)
    return ⟨date, wavelength, resolution₁, apply_psf, norm, use_gpu,
      fo.raw, fo.psf, some ng.1, some ng.2, fo.remoteQuery⟩
  else
    return ⟨date, wavelength, resolution₁, apply_psf, norm, use_gpu,
      fo.raw, fo.psf, none, none, fo.remoteQuery⟩

/-- `RegisterAIA.__init__` (fetch.py lines 261-281): build
`datasets[wavelength][resolution]`, one independently constructed
`SolarDisk` per pair of the nested loops, sharing `date`, `apply_psf` and
`norm` (`use_gpu` keeps its default `True`).  The Python dict is embedded
as an association list in loop order; a failing pair aborts construction. -/
def RegisterAIA.build (fenv : FetchEnv) (cenv : CalEnv) (listing : List String)
    (date : PyDateTime) (wavelengths resolutions : List ℕ)
    (apply_psf norm : Bool) :
    Except AcqError (List (ℕ × List (ℕ × SolarDisk))) :=
  wavelengths.mapM (fun wv => do
    let row ← resolutions.mapM (fun res => do
      let d ← SolarDisk.init fenv cenv listing date wv res apply_psf norm true
      return (res, d))
    return (wv, row))

/-- Modelled from the spec: the Carrington rotation period in days, the
constant of the canonical rotation/time mapping used by the `sunpy`
conversion functions (external to this repository). -/
def crPeriod : ℚ := 272753 / 10000

/-- Modelled from the spec: the instant (Julian day number) at which
Carrington rotation 1 begins. -/
def crEpoch : ℚ := 23981674 / 10

/-- Modelled from the spec:
`sunpy.coordinates.sun.carrington_rotation_number` — the canonical strictly
increasing affine map from an instant (Julian days, over `ℚ`) to the
continuous Carrington rotation count. -/
def carrington_rotation_number (t : ℚ) : ℚ :=
  (t - crEpoch) / crPeriod + 1

/-- Modelled from the spec:
`sunpy.coordinates.sun.carrington_rotation_time` — the inverse of
`carrington_rotation_number`, giving the representative instant of a
rotation count. -/
def carrington_rotation_time (n : ℚ) : ℚ :=
  crEpoch + (n - 1) * crPeriod

/-- Python truthiness of the optional `CR_equivalance: int = None`
argument: `None` and `0` are falsy. -/
def pyTruthy (cr : Option ℤ) : Bool :=
  match cr with
  | none => false
  | some n => decide (n ≠ 0)

/-- The rotation/date resolution of `SynopticMap.__init__` (fetch.py lines
312-318): a supplied (truthy) rotation number replaces the record's date by
`carrington_rotation_time`; otherwise the rotation number is
`np.ceil(carrington_rotation_number(date)).astype(int)`. -/
def SynopticMap.resolve (date : ℚ) (CR_equivalance : Option ℤ) : ℤ × ℚ :=
  if pyTruthy CR_equivalance then
    let cr := CR_equivalance.getD 0
    (cr, carrington_rotation_time (cr : ℚ))
  else
    (⌈carrington_rotation_number date⌉, date)

/-- The local file name `AIA0{:04d}_CR{:04d}.fits` of a synoptic map
(fetch.py lines 305 and 321). -/
def SynopticMap.fname (wavelength : ℕ) (cr : ℤ) : String :=
  "AIA0" ++ pad4 wavelength ++ "_CR" ++ pad4 cr.toNat ++ ".fits"

/-- The remote URL `.../AIA{:04d}/CR{:04d}.fits` of a synoptic map
(fetch.py lines 304 and 322). -/
def SynopticMap.remote_file_url (wavelength : ℕ) (cr : ℤ) : String :=
  "https://sdo.gsfc.nasa.gov/assets/img/synoptic/AIA" ++ pad4 wavelength ++
    "/CR" ++ pad4 cr.toNat ++ ".fits"

/-- A synoptic-map fetch failure; the spec names it `RemoteFetchError`. -/
inductive SynErr where
  | remoteFetchError
deriving DecidableEq

/-- An HTTP response as `SynopticMap.fetch` consumes it: the transport
status code and the body (`req.content`, abstracted as the FITS content it
parses to; `f.write(req.content)` stores it whole). -/
structure HttpResponse where
  status_code : ℕ
  content : FitsFile
deriving DecidableEq

/-- The header repair of `SynopticMap.fetch` (fetch.py lines 347-348):
force-set both coordinate-unit fields to `arcsec`, unconditionally. -/
def SynopticMap.repairHeader (h : Header) : Header :=
  (h.set "cunit1" (HVal.str "arcsec")).set "cunit2" (HVal.str "arcsec")

/-- `SynopticMap.fetch` (fetch.py lines 331-350) as a step on the local
filesystem state.  `localFile` is the current content of `self.local_file`
(`none` when absent); `resp` is what `requests.get` would return.  When the
file is absent it is downloaded, and written only on status 200; the fetch
then opens the local file — absent after a failed download, this fails
(`RemoteFetchError` in the spec's taxonomy) — and exposes the map with the
repaired header.  Returns the new filesystem state and the outcome. -/
def SynopticMap.fetchStep (localFile : Option FitsFile) (resp : HttpResponse) :
    Option FitsFile × Except SynErr FitsFile :=
  let stored :=
    if localFile.isNone then
      if resp.status_code = 200 then some resp.content else none
    else localFile
  match stored with
  | none => (none, Except.error SynErr.remoteFetchError)
  | some f => (stored, Except.ok ⟨f.data, SynopticMap.repairHeader f.header⟩)

/-! ## Concrete test fixtures

Small closed instances of the external environments, used to evaluate the
embedded operations on concrete inputs (witnesses of the theorems below). -/

/-- A stage body that demands no header fields and changes nothing. -/
def stageId : StageModel := ⟨[], id, fun _ v => v⟩

/-- A stage body demanding the pointing field `crpix1`. -/
def stageReq1 : StageModel := ⟨["crpix1"], id, fun _ v => v⟩

/-- A calibration environment whose four stages demand nothing. -/
def calEnvId : CalEnv := ⟨stageId, stageId, stageId, stageId⟩

/-- A calibration environment whose four stages each demand `crpix1`. -/
def calEnvReq1 : CalEnv := ⟨stageReq1, stageReq1, stageReq1, stageReq1⟩

/-- A header carrying the fields geometry extraction needs. -/
def hdrBase : Header :=
  [("cdelt2", HVal.num 1), ("r_sun", HVal.num 1600), ("rsun_obs", HVal.num 975)]

/-- A one-pixel FITS file with `hdrBase`. -/
def fileBase : FitsFile := ⟨[[1]], hdrBase⟩

/-- A stage-0 image with an empty header. -/
def emptyImg : CalImage := ⟨⟨[], []⟩, CalStage.NONE, []⟩

/-- A data-sourcing environment: every local load and every catalog record
yields `fileBase`; deconvolution is the identity. -/
def fenvT : FetchEnv := ⟨fun _ => fileBase, fun _ _ _ => [[fileBase]], fun f _ => f⟩

/-- 2015-03-11 00:00:00, the repository's example date. -/
def dateT : PyDateTime := ⟨2015, 3, 11, 0⟩

/-- A directory listing holding one file that matches the 193 Å pattern for
`dateT`. -/
def listingHit : List String := ["aia_lev1_193a_2015_03_11t00_00.fits"]

/-- The normalized image the identity stages produce from `fileBase`. -/
def normImgT : CalImage :=
  ⟨⟨[[1]], hdrBase⟩, CalStage.NORMALIZED,
    ["update_pointing", "register", "correct_degradation", "normalize_exposure"]⟩

/-- The geometry extracted from `hdrBase`. -/
def geomT : DiskGeometry := ⟨1, HVal.num 1600, 975, pyInt (975 / 1)⟩

/-- The `SolarDisk` that `fenvT` yields over the remote path with
`norm = False`, for wavelength `wv` and resolution `res`. -/
def diskT (wv res : ℕ) : SolarDisk :=
  ⟨dateT, wv, res, false, false, true, fileBase, none, none, none,
    some (dateT.toSec, dateT.toSec + 60, wv)⟩

/-! ## Helper lemmas -/

theorem bind_eq_ok {E α β : Type} (x : Except E α) (f : α → Except E β)
    (b : β) : (x >>= f = Except.ok b) ↔
      ∃ a, x = Except.ok a ∧ f a = Except.ok b := by
  cases x with
  | error e => simp [Bind.bind, Except.bind]
  | ok a => simp [Bind.bind, Except.bind]

theorem Header.find_set_self (h : Header) (k : String) (v : HVal) :
    (h.set k v).find k = some v := by
  induction h with
  | nil => simp [Header.set, Header.find]
  | cons kv rest ih =>
    by_cases hk : kv.1 = k
    · simp [Header.set, hk, Header.find]
    · simp [Header.set, hk, Header.find, ih]

theorem Header.find_set_ne (h : Header) (k k₁ : String) (v : HVal)
    (hne : k₁ ≠ k) : (h.set k v).find k₁ = h.find k₁ := by
  induction h with
  | nil => simp [Header.set, Header.find, hne, Ne.symm hne]
  | cons kv rest ih =>
    by_cases hk : kv.1 = k
    · simp [Header.set, hk, Header.find, hne, Ne.symm hne]
    · by_cases hk₁ : kv.1 = k₁ <;>
        simp [Header.set, hk, Header.find, hk₁, hne, Ne.symm hne, ih]

theorem Header.set_set_self (h : Header) (k : String) (v w : HVal) :
    (h.set k v).set k w = h.set k w := by
  induction h with
  | nil => simp [Header.set]
  | cons kv rest ih =>
    by_cases hk : kv.1 = k
    · simp [Header.set, hk]
    · simp [Header.set, hk, ih]

theorem Header.set_of_find_eq (h : Header) (k : String) (v : HVal)
    (hf : h.find k = some v) : h.set k v = h := by
  induction h with
  | nil => simp [Header.find] at hf
  | cons kv rest ih =>
    obtain ⟨k₂, v₂⟩ := kv
    by_cases hk : k₂ = k
    · simp [Header.find, hk] at hf
      simp [Header.set, hk, hf]
    · simp [Header.find, hk] at hf
      simp [Header.set, hk, ih hf]

/-! ## Claims -/

/-- Claim C1, counterexample: with `cdelt2 = 0.6` and `rsun_obs = 975.54`
(ratio `1625.9`) geometry extraction sets `pixel_radius = 1625`, whereas the
claimed nearest-integer rounding gives `1626` — the claim is false on the
code, which truncates via Python `int()`. -/
theorem pixel_radius_truncates_counterexample :
    ∃ g, fetch_solar_parameters
        [("cdelt2", HVal.num (3/5)), ("r_sun", HVal.num 1600),
         ("rsun_obs", HVal.num (48777/50))] = Except.ok g ∧
      g.pixel_radius = 1625 ∧
      specPixelRadius g.rsun_obs g.rscale = 1626 ∧
      g.pixel_radius ≠ specPixelRadius g.rsun_obs g.rscale := by
  have hpy : pyInt ((48777/50 : ℚ) / (3/5)) = 1625 := by norm_num [pyInt]
  have hrd : specPixelRadius (48777/50) (3/5) = 1626 := by
    norm_num [specPixelRadius, round_eq]
  refine ⟨⟨3/5, HVal.num 1600, 48777/50, 1625⟩, ?_, rfl, hrd, ?_⟩
  · have base : fetch_solar_parameters
        [("cdelt2", HVal.num (3/5)), ("r_sun", HVal.num 1600),
         ("rsun_obs", HVal.num (48777/50))] =
        Except.ok ⟨3/5, HVal.num 1600, 48777/50,
          pyInt ((48777/50 : ℚ) / (3/5))⟩ := rfl
    rw [base, hpy]
  · show (1625 : ℤ) ≠ specPixelRadius (48777/50) (3/5)
    rw [hrd]
    decide

/-- Claim C1 (amended): for every `DiskGeometry` produced by
`fetch_solar_parameters` from a header with angular radius `rsun_obs` and
angular scale `cdelt2`, the computed `pixel_radius` equals the TRUNCATION
toward zero (Python `int`) of `rsun_obs / cdelt2` — the floor of the ratio
whenever the ratio is nonnegative — not its nearest-integer rounding; the
spec's example `rsun_obs = 975.0`, `rscale = 0.6` still gives `1625`. -/
theorem pixel_radius_is_truncation (h : Header) (g : DiskGeometry)
    (hg : fetch_solar_parameters h = Except.ok g) :
    g.pixel_radius = pyInt (g.rsun_obs / g.rscale) ∧
    (0 ≤ g.rsun_obs / g.rscale → g.pixel_radius = ⌊g.rsun_obs / g.rscale⌋) ∧
    h.find "cdelt2" = some (HVal.num g.rscale) ∧
    h.find "rsun_obs" = some (HVal.num g.rsun_obs) := by
  unfold fetch_solar_parameters at hg
  split at hg
  · rename_i a r b h₁ h₂ h₃
    injection hg with hg₁
    subst hg₁
    refine ⟨rfl, ?_, h₁, h₃⟩
    intro hq
    simp [pyInt, hq]
  · rename_i hx
    simp at hg

/-- Witness for `pixel_radius_is_truncation`: the amended claim holds at
the spec's own example header, `cdelt2 = 0.6`, `rsun_obs = 975.0`, where
the ratio is exactly `1625`. -/
theorem pixel_radius_is_truncation_witness :
    (DiskGeometry.mk (3/5) (HVal.num 1600) 975 1625).pixel_radius =
      pyInt ((DiskGeometry.mk (3/5) (HVal.num 1600) 975 1625).rsun_obs /
        (DiskGeometry.mk (3/5) (HVal.num 1600) 975 1625).rscale) :=
  (pixel_radius_is_truncation
    [("cdelt2", HVal.num (3/5)), ("r_sun", HVal.num 1600),
     ("rsun_obs", HVal.num 975)]
    (DiskGeometry.mk (3/5) (HVal.num 1600) 975 1625)
    (by
      have base : fetch_solar_parameters
          [("cdelt2", HVal.num (3/5)), ("r_sun", HVal.num 1600),
           ("rsun_obs", HVal.num 975)] =
          Except.ok ⟨3/5, HVal.num 1600, 975, pyInt ((975 : ℚ) / (3/5))⟩ := rfl
      have hv : pyInt ((975 : ℚ) / (3/5)) = 1625 := by norm_num [pyInt]
      rw [base, hv])).1

/-- Claim C5: a supplied (truthy) rotation number replaces the record's
date by the inverse rotation-to-time mapping; otherwise the rotation number
is the CEILING of the continuous rotation count at the supplied timestamp
(`carrington_rotation_time` inverts `carrington_rotation_number`); a
timestamp at rotation count `2285.1` resolves to rotation `2286`, and
feeding `2286` back through the inverse mapping yields a timestamp whose
forward count rounds up to `2286` again. -/
theorem synoptic_rotation_resolution_ceiling (d : ℚ) (cr : ℤ) (hcr : cr ≠ 0) :
    SynopticMap.resolve d (some cr) = (cr, carrington_rotation_time (cr : ℚ)) ∧
    SynopticMap.resolve d none = (⌈carrington_rotation_number d⌉, d) ∧
    (∀ q : ℚ, carrington_rotation_number (carrington_rotation_time q) = q) ∧
    (SynopticMap.resolve (carrington_rotation_time (22851/10)) none).1 = 2286 ∧
    ⌈carrington_rotation_number (carrington_rotation_time (2286 : ℚ))⌉ =
      (2286 : ℤ) := by
  have hinv : ∀ q : ℚ, carrington_rotation_number (carrington_rotation_time q) = q := by
    intro q
    unfold carrington_rotation_number carrington_rotation_time
    have hp : crPeriod ≠ 0 := by norm_num [crPeriod]
    field_simp
  refine ⟨?_, ?_, hinv, ?_, ?_⟩
  · simp [SynopticMap.resolve, pyTruthy, hcr]
  · simp [SynopticMap.resolve, pyTruthy]
  · show (⌈carrington_rotation_number
        (carrington_rotation_time (22851/10))⌉ : ℤ) = 2286
    rw [hinv, Int.ceil_eq_iff]
    constructor <;> norm_num
  · rw [hinv]
    simp

/-- Witness for `synoptic_rotation_resolution_ceiling` at date `0` and
rotation `2286`. -/
theorem synoptic_rotation_resolution_ceiling_witness :
    SynopticMap.resolve 0 (some 2286) =
      (2286, carrington_rotation_time ((2286 : ℤ) : ℚ)) ∧
    SynopticMap.resolve 0 none = (⌈carrington_rotation_number 0⌉, 0) ∧
    (∀ q : ℚ, carrington_rotation_number (carrington_rotation_time q) = q) ∧
    (SynopticMap.resolve (carrington_rotation_time (22851/10)) none).1 = 2286 ∧
    ⌈carrington_rotation_number (carrington_rotation_time (2286 : ℚ))⌉ =
      (2286 : ℤ) :=
  synoptic_rotation_resolution_ceiling 0 2286 (by decide)

/-- Claim C6: the synoptic header repair force-sets both coordinate-unit
fields to `arcsec` regardless of their stored values, is idempotent, and a
second fetch of the same pair (now satisfied from the stored local file)
exposes the identical corrected map. -/
theorem synoptic_header_repair_idempotent (h : Header) (lf : Option FitsFile)
    (resp resp₂ : HttpResponse) (m : FitsFile)
    (hok : (SynopticMap.fetchStep lf resp).2 = Except.ok m) :
    (SynopticMap.repairHeader h).find "cunit1" = some (HVal.str "arcsec") ∧
    (SynopticMap.repairHeader h).find "cunit2" = some (HVal.str "arcsec") ∧
    SynopticMap.repairHeader (SynopticMap.repairHeader h) =
      SynopticMap.repairHeader h ∧
    SynopticMap.fetchStep (SynopticMap.fetchStep lf resp).1 resp₂ =
      ((SynopticMap.fetchStep lf resp).1, Except.ok m) := by
  have hfind₁ : ∀ h₀ : Header,
      (SynopticMap.repairHeader h₀).find "cunit1" = some (HVal.str "arcsec") := by
    intro h₀
    unfold SynopticMap.repairHeader
    rw [Header.find_set_ne _ _ _ _ (by decide), Header.find_set_self]
  have hfind₂ : ∀ h₀ : Header,
      (SynopticMap.repairHeader h₀).find "cunit2" = some (HVal.str "arcsec") := by
    intro h₀
    unfold SynopticMap.repairHeader
    rw [Header.find_set_self]
  refine ⟨hfind₁ h, hfind₂ h, ?_, ?_⟩
  · show ((SynopticMap.repairHeader h).set "cunit1"
        (HVal.str "arcsec")).set "cunit2" (HVal.str "arcsec") =
      SynopticMap.repairHeader h
    rw [Header.set_of_find_eq _ _ _ (hfind₁ h),
      Header.set_of_find_eq _ _ _ (hfind₂ h)]
  · cases lf with
    | some f =>
      simp [SynopticMap.fetchStep] at hok ⊢
      exact hok
    | none =>
      by_cases h200 : resp.status_code = 200
      · simp [SynopticMap.fetchStep, h200] at hok ⊢
        exact hok
      · simp [SynopticMap.fetchStep, h200] at hok

/-- Witness for `synoptic_header_repair_idempotent`: a successful download
(status 200) of an empty map, repeated fetch included. -/
theorem synoptic_header_repair_idempotent_witness :
    (SynopticMap.repairHeader []).find "cunit1" = some (HVal.str "arcsec") ∧
    (SynopticMap.repairHeader []).find "cunit2" = some (HVal.str "arcsec") ∧
    SynopticMap.repairHeader (SynopticMap.repairHeader []) =
      SynopticMap.repairHeader [] ∧
    SynopticMap.fetchStep
        (SynopticMap.fetchStep none ⟨200, ⟨[], []⟩⟩).1 ⟨404, ⟨[], []⟩⟩ =
      ((SynopticMap.fetchStep none ⟨200, ⟨[], []⟩⟩).1,
        Except.ok ⟨[], SynopticMap.repairHeader []⟩) :=
  synoptic_header_repair_idempotent [] none ⟨200, ⟨[], []⟩⟩ ⟨404, ⟨[], []⟩⟩
    ⟨[], SynopticMap.repairHeader []⟩ rfl

/-- Claim C7: with the local file absent, a non-success transport status
writes nothing (the local file stays absent) and the fetch fails with
`RemoteFetchError`; on status 200 the full body is stored before parsing
and the repaired map is exposed from the stored content. -/
theorem synoptic_fetch_transport_failure (resp : HttpResponse) :
    (resp.status_code ≠ 200 →
      SynopticMap.fetchStep none resp =
        (none, Except.error SynErr.remoteFetchError)) ∧
    (resp.status_code = 200 →
      SynopticMap.fetchStep none resp =
        (some resp.content,
          Except.ok ⟨resp.content.data,
            SynopticMap.repairHeader resp.content.header⟩)) := by
  constructor <;> intro h <;> simp [SynopticMap.fetchStep, h]

/-- Witness for `synoptic_fetch_transport_failure`: status 404 leaves the
file absent and fails; status 200 stores the body and exposes the repaired
map. -/
theorem synoptic_fetch_transport_failure_witness :
    SynopticMap.fetchStep none ⟨404, ⟨[], []⟩⟩ =
      (none, Except.error SynErr.remoteFetchError) ∧
    SynopticMap.fetchStep none ⟨200, ⟨[[1]], [("cunit1", HVal.str "deg")]⟩⟩ =
      (some ⟨[[1]], [("cunit1", HVal.str "deg")]⟩,
        Except.ok ⟨[[1]],
          SynopticMap.repairHeader [("cunit1", HVal.str "deg")]⟩) :=
  ⟨(synoptic_fetch_transport_failure ⟨404, ⟨[], []⟩⟩).1 (by decide),
   (synoptic_fetch_transport_failure
      ⟨200, ⟨[[1]], [("cunit1", HVal.str "deg")]⟩⟩).2 rfl⟩

/-- Claim C4: the `resolution` parameter has no effect on acquisition —
`SolarDisk.fetch` returns the same outcome (same raw map, same deconvolved
variant, same catalog provenance) for every resolution, and a `SolarDisk`
constructed at any resolution holds raw pixel data identical to the one the
default 4096 yields; the local cache pattern never mentions resolution
(`SolarDisk.globHead` is a function of wavelength and date only). -/
theorem fetch_resolution_no_op (fenv : FetchEnv) (cenv : CalEnv)
    (listing : List String) (date : PyDateTime) (wv res res₂ : ℕ)
    (apsf nrm gpu : Bool) :
    SolarDisk.fetch fenv listing date wv res apsf gpu =
      SolarDisk.fetch fenv listing date wv res₂ apsf gpu ∧
    (SolarDisk.init fenv cenv listing date wv res apsf nrm gpu).map
        SolarDisk.raw =
      (SolarDisk.init fenv cenv listing date wv 4096 apsf nrm gpu).map
        SolarDisk.raw := by
  have hf : ∀ r r₂ : ℕ, SolarDisk.fetch fenv listing date wv r apsf gpu =
      SolarDisk.fetch fenv listing date wv r₂ apsf gpu := by
    intro r r₂
    simp [SolarDisk.fetch]
  refine ⟨hf res res₂, ?_⟩
  simp only [SolarDisk.init]
  rw [hf (if res ≠ 0 then res else 4096) (if (4096 : ℕ) ≠ 0 then 4096 else 4096)]
  cases hq : SolarDisk.fetch fenv listing date wv
      (if (4096 : ℕ) ≠ 0 then 4096 else 4096) apsf gpu with
  | error e => simp [hq, Bind.bind, Except.bind, Except.map]
  | ok fo =>
    cases nrm with
    | false => simp [hq, Bind.bind, Except.bind, Except.map, Except.pure, pure]
    | true =>
      cases hn : SolarDisk.normalization cenv apsf fo.raw (fo.psf.getD fo.raw) with
      | error e => simp [hq, hn, Bind.bind, Except.bind, Except.map]
      | ok ng => simp [hq, hn, Bind.bind, Except.bind, Except.map, Except.pure, pure]

/-- Claim C8: a calibration stage invoked on an input lacking a required
header field fails with a `CalibrationError` carrying that stage's name
(never silently skipped), and geometry extraction on a header missing the
angular-scale or angular-radius field fails with
`MissingGeometryFieldsError`. -/
theorem stage_missing_field_errors (env : CalEnv) (img : CalImage) (h : Header) :
    (env.pointing.required.all
        (fun k => (img.file.header.find k).isSome) = false →
      update_pointing env img =
        Except.error (AcqError.calibrationError "update_pointing")) ∧
    (env.registration.required.all
        (fun k => (img.file.header.find k).isSome) = false →
      register env img =
        Except.error (AcqError.calibrationError "register")) ∧
    (env.degradation.required.all
        (fun k => (img.file.header.find k).isSome) = false →
      correct_degradation env img =
        Except.error (AcqError.calibrationError "correct_degradation")) ∧
    (env.exposure.required.all
        (fun k => (img.file.header.find k).isSome) = false →
      normalize_exposure env img =
        Except.error (AcqError.calibrationError "normalize_exposure")) ∧
    (h.find "cdelt2" = none ∨ h.find "rsun_obs" = none →
      fetch_solar_parameters h =
        Except.error AcqError.missingGeometryFieldsError) := by
  refine ⟨?_, ?_, ?_, ?_, ?_⟩
  · intro hx
    simp [update_pointing, runStage, hx]
  · intro hx
    simp [register, runStage, hx]
  · intro hx
    simp [correct_degradation, runStage, hx]
  · intro hx
    simp [normalize_exposure, runStage, hx]
  · intro hd
    unfold fetch_solar_parameters
    split
    · rename_i a r b h₁ h₂ h₃
      rcases hd with hd | hd
      · rw [hd] at h₁
        simp at h₁
      · rw [hd] at h₃
        simp at h₃
    · rfl

/-- Witness for `stage_missing_field_errors`: the stages of `calEnvReq1`
demand `crpix1`, which `emptyImg` lacks; the empty header lacks `cdelt2`. -/
theorem stage_missing_field_errors_witness :
    (update_pointing calEnvReq1 emptyImg =
      Except.error (AcqError.calibrationError "update_pointing")) ∧
    (register calEnvReq1 emptyImg =
      Except.error (AcqError.calibrationError "register")) ∧
    (correct_degradation calEnvReq1 emptyImg =
      Except.error (AcqError.calibrationError "correct_degradation")) ∧
    (normalize_exposure calEnvReq1 emptyImg =
      Except.error (AcqError.calibrationError "normalize_exposure")) ∧
    (fetch_solar_parameters [] =
      Except.error AcqError.missingGeometryFieldsError) :=
  have hth := stage_missing_field_errors calEnvReq1 emptyImg []
  ⟨hth.1 rfl, hth.2.1 rfl, hth.2.2.1 rfl, hth.2.2.2.1 rfl,
    hth.2.2.2.2 (Or.inl rfl)⟩

theorem runStage_ok_inv (name : String) (target : CalStage) (s : StageModel)
    (img img₂ : CalImage) (h : runStage name target s img = Except.ok img₂) :
    img₂.stage = target ∧ img₂.trace = img.trace ++ [name] := by
  unfold runStage at h
  split at h
  · injection h with h₂
    subst h₂
    exact ⟨rfl, rfl⟩
  · simp at h

theorem fetch_solar_parameters_finds (h : Header) (g : DiskGeometry)
    (hg : fetch_solar_parameters h = Except.ok g) :
    (h.find "cdelt2").isSome ∧ (h.find "rsun_obs").isSome := by
  unfold fetch_solar_parameters at hg
  split at hg
  · rename_i a r b h₁ h₂ h₃
    simp [h₁, h₃]
  · simp at hg

theorem normalization_ok_inv (env : CalEnv) (apsf : Bool) (raw psfD : FitsFile)
    (n : CalImage) (g : DiskGeometry)
    (hn : SolarDisk.normalization env apsf raw psfD = Except.ok (n, g)) :
    (∃ i₁ i₂ i₃,
      update_pointing env
          (if apsf then ⟨psfD, CalStage.DECONVOLVED, []⟩
            else ⟨raw, CalStage.NONE, []⟩) = Except.ok i₁ ∧
      register env i₁ = Except.ok i₂ ∧
      correct_degradation env i₂ = Except.ok i₃ ∧
      normalize_exposure env i₃ = Except.ok n) ∧
    n.stage = CalStage.NORMALIZED ∧
    n.trace = ["update_pointing", "register", "correct_degradation",
      "normalize_exposure"] ∧
    fetch_solar_parameters n.file.header = Except.ok g := by
  simp only [SolarDisk.normalization] at hn
  rw [bind_eq_ok] at hn
  obtain ⟨i₁, h₁, hn⟩ := hn
  rw [bind_eq_ok] at hn
  obtain ⟨i₂, h₂, hn⟩ := hn
  rw [bind_eq_ok] at hn
  obtain ⟨i₃, h₃, hn⟩ := hn
  rw [bind_eq_ok] at hn
  obtain ⟨i₄, h₄, hn⟩ := hn
  rw [bind_eq_ok] at hn
  obtain ⟨g₄, hg₄, hn⟩ := hn
  simp only [pure, Except.pure, Except.ok.injEq, Prod.mk.injEq] at hn
  obtain ⟨hn₁, hn₂⟩ := hn
  subst hn₁
  subst hn₂
  have t₀ : (if apsf then (⟨psfD, CalStage.DECONVOLVED, []⟩ : CalImage)
      else ⟨raw, CalStage.NONE, []⟩).trace = [] := by
    cases apsf <;> rfl
  have r₁ := runStage_ok_inv _ _ _ _ _ h₁
  have r₂ := runStage_ok_inv _ _ _ _ _ h₂
  have r₃ := runStage_ok_inv _ _ _ _ _ h₃
  have r₄ := runStage_ok_inv _ _ _ _ _ h₄
  refine ⟨⟨i₁, i₂, i₃, h₁, h₂, h₃, h₄⟩, r₄.1, ?_, hg₄⟩
  rw [r₄.2, r₃.2, r₂.2, r₁.2, t₀]
  rfl

/-- Claim C2: a successful `SolarDisk.normalization` applies exactly the
four calibration stages in the fixed order pointing update, registration,
degradation correction, exposure normalization (its trace lists exactly
those four names in order); the stage-0 input is chosen once, before
stage 1, as the deconvolved image when `apply_psf` else the raw image; and
the result is a `NORMALIZED` image whose header still carries the
angular-scale and angular-radius fields geometry extraction consumes. -/
theorem normalization_four_stages_fixed_order (env : CalEnv) (apsf : Bool)
    (raw psfD : FitsFile) (n : CalImage) (g : DiskGeometry)
    (hn : SolarDisk.normalization env apsf raw psfD = Except.ok (n, g)) :
    (∃ i₁ i₂ i₃,
      update_pointing env
          (if apsf then ⟨psfD, CalStage.DECONVOLVED, []⟩
            else ⟨raw, CalStage.NONE, []⟩) = Except.ok i₁ ∧
      register env i₁ = Except.ok i₂ ∧
      correct_degradation env i₂ = Except.ok i₃ ∧
      normalize_exposure env i₃ = Except.ok n) ∧
    n.stage = CalStage.NORMALIZED ∧
    n.trace = ["update_pointing", "register", "correct_degradation",
      "normalize_exposure"] ∧
    (n.file.header.find "cdelt2").isSome ∧
    (n.file.header.find "rsun_obs").isSome := by
  have H := normalization_ok_inv env apsf raw psfD n g hn
  have F := fetch_solar_parameters_finds n.file.header g H.2.2.2
  exact ⟨H.1, H.2.1, H.2.2.1, F.1, F.2⟩

/-- Witness for `normalization_four_stages_fixed_order`: the identity
calibration environment applied to `fileBase` without deconvolution. -/
theorem normalization_four_stages_fixed_order_witness :
    (∃ i₁ i₂ i₃,
      update_pointing calEnvId (⟨fileBase, CalStage.NONE, []⟩ : CalImage) =
        Except.ok i₁ ∧
      register calEnvId i₁ = Except.ok i₂ ∧
      correct_degradation calEnvId i₂ = Except.ok i₃ ∧
      normalize_exposure calEnvId i₃ = Except.ok normImgT) ∧
    normImgT.stage = CalStage.NORMALIZED ∧
    normImgT.trace = ["update_pointing", "register", "correct_degradation",
      "normalize_exposure"] ∧
    (normImgT.file.header.find "cdelt2").isSome ∧
    (normImgT.file.header.find "rsun_obs").isSome :=
  normalization_four_stages_fixed_order calEnvId false fileBase fileBase
    normImgT geomT rfl

/-- Claim C3: acquisition searches the local cache first with the
date-plus-wavelength glob pattern, taking the first match in
directory-listing order; on a hit that file becomes the raw map and no
catalog query is issued; on a miss the search yields the not-found value
`none` (not an error) and the acquirer falls through to a Fido query over
the window `[date, date + 60 s)` at the given wavelength, using the first
record of the first result group. -/
theorem fetch_cache_first_then_remote (env : FetchEnv) (listing : List String)
    (d : PyDateTime) (wv res : ℕ) (apsf gpu : Bool) :
    SolarDisk.search_local listing wv d =
      (listing.filter (globMatch (SolarDisk.globHead wv d))).head? ∧
    (listing.filter (globMatch (SolarDisk.globHead wv d)) = [] →
      SolarDisk.search_local listing wv d = none) ∧
    (∀ f, SolarDisk.search_local listing wv d = some f →
      SolarDisk.fetch env listing d wv res apsf gpu =
        Except.ok ⟨env.loadLocal f,
          if apsf then some (env.deconvolve (env.loadLocal f) gpu) else none,
          none⟩) ∧
    (SolarDisk.search_local listing wv d = none →
      ∀ rec grp gs,
        env.fidoSearch d.toSec (d.toSec + 60) wv = (rec :: grp) :: gs →
        SolarDisk.fetch env listing d wv res apsf gpu =
          Except.ok ⟨rec,
            if apsf then some (env.deconvolve rec gpu) else none,
            some (d.toSec, d.toSec + 60, wv)⟩) ∧
    (SolarDisk.search_local listing wv d = none →
      env.fidoSearch d.toSec (d.toSec + 60) wv = [] →
      SolarDisk.fetch env listing d wv res apsf gpu =
        Except.error AcqError.notFoundError) := by
  refine ⟨rfl, ?_, ?_, ?_, ?_⟩
  · intro he
    simp [SolarDisk.search_local, he]
  · intro f hf
    simp [SolarDisk.fetch, hf, Bind.bind, Except.bind, pure, Except.pure]
  · intro hnone rec grp gs hq
    simp [SolarDisk.fetch, hnone, hq, Bind.bind, Except.bind, pure,
      Except.pure, List.head?]
  · intro hnone hq
    simp [SolarDisk.fetch, hnone, hq, Bind.bind, Except.bind, List.head?]

/-- Witness for `fetch_cache_first_then_remote`: a cache hit loads the
matching file and issues no query; an empty cache falls through to the
catalog record. -/
theorem fetch_cache_first_then_remote_witness :
    SolarDisk.fetch fenvT listingHit dateT 193 4096 false true =
      Except.ok ⟨fenvT.loadLocal "aia_lev1_193a_2015_03_11t00_00.fits",
        none, none⟩ ∧
    SolarDisk.fetch fenvT [] dateT 193 4096 false true =
      Except.ok ⟨fileBase, none, some (dateT.toSec, dateT.toSec + 60, 193)⟩ :=
  ⟨(fetch_cache_first_then_remote fenvT listingHit dateT 193 4096
      false true).2.2.1 "aia_lev1_193a_2015_03_11t00_00.fits" (by decide),
   (fetch_cache_first_then_remote fenvT [] dateT 193 4096
      false true).2.2.2.1 rfl fileBase [] [] rfl⟩

/-- The outcome of `SolarDisk.fetch` always carries the deconvolved variant
exactly when `apply_psf` was set: `psf = deconvolve raw` under `apply_psf`,
`none` otherwise. -/
theorem fetch_psf_shape (env : FetchEnv) (listing : List String)
    (d : PyDateTime) (wv res : ℕ) (apsf gpu : Bool) (fo : FetchOut)
    (h : SolarDisk.fetch env listing d wv res apsf gpu = Except.ok fo) :
    fo.psf = if apsf then some (env.deconvolve fo.raw gpu) else none := by
  simp only [SolarDisk.fetch] at h
  split at h
  · simp only [Bind.bind, Except.bind, pure, Except.pure, Except.ok.injEq] at h
    subst h
    simp
  · split at h
    · simp [Bind.bind, Except.bind] at h
    · split at h
      · simp [Bind.bind, Except.bind] at h
      · simp only [Bind.bind, Except.bind, pure, Except.pure,
          Except.ok.injEq] at h
        subst h
        simp

/-- Claim C10: with `norm = False` a constructed `SolarDisk` runs neither
the calibration pipeline nor geometry extraction — it exposes no normalized
image and no geometry, only the raw image and (exactly when `apply_psf`)
the deconvolved image; with `norm = True` a successful construction holds a
`NORMALIZED` image and a geometry extracted from that image's header,
immediately after the fourth stage. -/
theorem norm_flag_gates_pipeline (fenv : FetchEnv) (cenv : CalEnv)
    (listing : List String) (date : PyDateTime) (wv res : ℕ)
    (apsf gpu : Bool) :
    (∀ s, SolarDisk.init fenv cenv listing date wv res apsf false gpu =
        Except.ok s →
      s.normalized = none ∧ s.geometry = none ∧
      s.psf.isSome = apsf ∧
      (apsf = true → s.psf = some (fenv.deconvolve s.raw gpu))) ∧
    (∀ s, SolarDisk.init fenv cenv listing date wv res apsf true gpu =
        Except.ok s →
      ∃ n g, s.normalized = some n ∧ s.geometry = some g ∧
        n.stage = CalStage.NORMALIZED ∧
        n.trace = ["update_pointing", "register", "correct_degradation",
          "normalize_exposure"] ∧
        fetch_solar_parameters n.file.header = Except.ok g) := by
  constructor
  · intro s hs
    simp only [SolarDisk.init] at hs
    rw [bind_eq_ok] at hs
    obtain ⟨fo, hfo, hs⟩ := hs
    have hpsf := fetch_psf_shape fenv listing date wv _ apsf gpu fo hfo
    simp only [Bool.false_eq_true, if_false, pure, Except.pure,
      Except.ok.injEq] at hs
    subst hs
    refine ⟨rfl, rfl, ?_, ?_⟩
    · rw [hpsf]
      cases apsf <;> simp
    · intro ha
      subst ha
      simpa using hpsf
  · intro s hs
    simp only [SolarDisk.init] at hs
    rw [bind_eq_ok] at hs
    obtain ⟨fo, hfo, hs⟩ := hs
    simp only [if_true] at hs
    rw [bind_eq_ok] at hs
    obtain ⟨ng, hng, hs⟩ := hs
    simp only [pure, Except.pure, Except.ok.injEq] at hs
    subst hs
    have H := normalization_ok_inv cenv apsf fo.raw (fo.psf.getD fo.raw)
      ng.1 ng.2 (by rw [hng])
    exact ⟨ng.1, ng.2, rfl, rfl, H.2.1, H.2.2.1, H.2.2.2⟩

/-- Witness for `norm_flag_gates_pipeline`: construction over the remote
path (empty cache), once with `norm = False` and once with `norm = True`. -/
theorem norm_flag_gates_pipeline_witness :
    ((⟨dateT, 193, 4096, false, false, true, fileBase, none, none, none,
        some (dateT.toSec, dateT.toSec + 60, 193)⟩ : SolarDisk).normalized =
          none ∧
      (⟨dateT, 193, 4096, false, false, true, fileBase, none, none, none,
        some (dateT.toSec, dateT.toSec + 60, 193)⟩ : SolarDisk).geometry =
          none ∧
      (⟨dateT, 193, 4096, false, false, true, fileBase, none, none, none,
        some (dateT.toSec, dateT.toSec + 60, 193)⟩ :
          SolarDisk).psf.isSome = false ∧
      (false = true →
        (⟨dateT, 193, 4096, false, false, true, fileBase, none, none, none,
          some (dateT.toSec, dateT.toSec + 60, 193)⟩ : SolarDisk).psf =
          some (fenvT.deconvolve
            (⟨dateT, 193, 4096, false, false, true, fileBase, none, none,
              none, some (dateT.toSec, dateT.toSec + 60, 193)⟩ :
                SolarDisk).raw true))) ∧
    (∃ n g,
      (⟨dateT, 193, 4096, false, true, true, fileBase, none, some normImgT,
        some geomT, some (dateT.toSec, dateT.toSec + 60, 193)⟩ :
          SolarDisk).normalized = some n ∧
      (⟨dateT, 193, 4096, false, true, true, fileBase, none, some normImgT,
        some geomT, some (dateT.toSec, dateT.toSec + 60, 193)⟩ :
          SolarDisk).geometry = some g ∧
      n.stage = CalStage.NORMALIZED ∧
      n.trace = ["update_pointing", "register", "correct_degradation",
        "normalize_exposure"] ∧
      fetch_solar_parameters n.file.header = Except.ok g) :=
  ⟨(norm_flag_gates_pipeline fenvT calEnvId [] dateT 193 4096
      false true).1
      ⟨dateT, 193, 4096, false, false, true, fileBase, none, none, none,
        some (dateT.toSec, dateT.toSec + 60, 193)⟩ (by rfl),
   (norm_flag_gates_pipeline fenvT calEnvId [] dateT 193 4096
      false true).2
      ⟨dateT, 193, 4096, false, true, true, fileBase, none, some normImgT,
        some geomT, some (dateT.toSec, dateT.toSec + 60, 193)⟩ (by rfl)⟩

theorem mapM_eq_ok {α β : Type} (f : α → Except AcqError β) (g : α → β)
    (l : List α) (hl : ∀ a ∈ l, f a = Except.ok (g a)) :
    l.mapM f = Except.ok (l.map g) := by
  induction l with
  | nil => rfl
  | cons a as ih =>
    rw [List.mapM_cons, hl a (by simp),
      ih (fun x hx => hl x (List.mem_cons_of_mem a hx))]
    simp [Bind.bind, Except.bind, pure, Except.pure]

/-- Claim C9: under pointwise-successful acquisition, `RegisterAIA` builds
`datasets` as exactly the cartesian-product table — one independently
acquired `SolarDisk` per (wavelength, resolution) pair, indexed first by
wavelength then by resolution, all sharing `date`, `apply_psf` and `norm` —
with one row per wavelength and one entry per resolution in each row
(e.g. wavelengths `[171, 193]` with resolutions `[1024, 4096]` give
`2 × 2 = 4` entries). -/
theorem register_aia_cartesian_product (fenv : FetchEnv) (cenv : CalEnv)
    (listing : List String) (date : PyDateTime) (W R : List ℕ)
    (apsf nrm : Bool) (g : ℕ → ℕ → SolarDisk)
    (hall : ∀ wv ∈ W, ∀ res ∈ R,
      SolarDisk.init fenv cenv listing date wv res apsf nrm true =
        Except.ok (g wv res)) :
    RegisterAIA.build fenv cenv listing date W R apsf nrm =
      Except.ok (W.map (fun wv =>
        (wv, R.map (fun res => (res, g wv res))))) ∧
    (W.map (fun wv => (wv, R.map (fun res => (res, g wv res))))).length =
      W.length ∧
    ∀ p ∈ W.map (fun wv => (wv, R.map (fun res => (res, g wv res)))),
      p.2.length = R.length := by
  refine ⟨?_, by simp, ?_⟩
  · have inner : ∀ wv ∈ W,
        (R.mapM (fun res => do
          let d ← SolarDisk.init fenv cenv listing date wv res apsf nrm true
          return (res, d))) =
          Except.ok (R.map (fun res => (res, g wv res))) := by
      intro wv hwv
      apply mapM_eq_ok
      intro res hres
      rw [show (do
          let d ← SolarDisk.init fenv cenv listing date wv res apsf nrm true
          return (res, d) : Except AcqError (ℕ × SolarDisk)) =
          SolarDisk.init fenv cenv listing date wv res apsf nrm true >>=
            fun d => pure (res, d) from rfl,
        hall wv hwv res hres]
      rfl
    unfold RegisterAIA.build
    apply mapM_eq_ok
    intro wv hwv
    rw [show (do
        let row ← R.mapM (fun res => do
          let d ← SolarDisk.init fenv cenv listing date wv res apsf nrm true
          return (res, d))
        return (wv, row) : Except AcqError (ℕ × List (ℕ × SolarDisk))) =
        (R.mapM (fun res => do
          let d ← SolarDisk.init fenv cenv listing date wv res apsf nrm true
          return (res, d))) >>= fun row => pure (wv, row) from rfl,
      inner wv hwv]
    rfl
  · intro p hp
    rw [List.mem_map] at hp
    obtain ⟨wv, hwv, hp⟩ := hp
    subst hp
    simp

/-- Witness for `register_aia_cartesian_product`: wavelengths `[171, 193]`
with resolutions `[1024, 4096]` over the remote path give the full
two-by-two table. -/
theorem register_aia_cartesian_product_witness :
    RegisterAIA.build fenvT calEnvId [] dateT [171, 193] [1024, 4096]
        false false =
      Except.ok ([171, 193].map (fun wv =>
        (wv, [1024, 4096].map (fun res => (res, diskT wv res))))) ∧
    ([171, 193].map (fun wv =>
        (wv, [1024, 4096].map (fun res => (res, diskT wv res))))).length =
      2 ∧
    ∀ p ∈ [171, 193].map (fun wv =>
        (wv, [1024, 4096].map (fun res => (res, diskT wv res)))),
      p.2.length = 2 :=
  register_aia_cartesian_product fenvT calEnvId [] dateT [171, 193]
    [1024, 4096] false false diskT
    (by
      intro wv hwv res hres
      fin_cases hwv <;> fin_cases hres <;> rfl)

end Chips
